import Mathlib

/-!
Shallow embedding of the header-theme propagation surface of the wearpact-cms
repository: `src/Header/Component.client.tsx` (HeaderClient), `src/Header/Nav/index.tsx`
(HeaderNav), `src/Footer/Component.tsx` (Footer) and the HighImpactHero block.

The shared "header theme" context value is a JavaScript `string | null`, embedded as
`Option String` with `none` for `null`. JavaScript truthiness tests on such a value
(`headerTheme && ...`, `theme ? ... : ...`) are false for both `null` and the empty
string, embedded by `jsTruthy`.
-/

/-- JavaScript truthiness of a `string | null` value: `null` and `""` are falsy. -/
def jsTruthy : Option String → Bool
  | none => false
  | some s => !s.isEmpty

/-- State visible to these components: the shared HeaderTheme context value and
the HeaderClient's local `theme` useState cell (both `string | null`). -/
structure SystemState where
  headerTheme : Option String
  theme : Option String
  deriving DecidableEq, Repr

/-- Modelled from the spec: the HeaderTheme context provider
(`@/providers/HeaderTheme`, whose source is not among the files here) exposes a
setter that any consumer may call; it replaces the shared theme value, and
subscribers observe the new value. -/
def setHeaderTheme (v : Option String) (s : SystemState) : SystemState :=
  { s with headerTheme := v }

/-- A React effect: its dependency list (`none` embeds a `useEffect` with no
dependency array, which re-runs after every render), its body, and its optional
cleanup function (none of the effects in this surface declare a cleanup). -/
structure Effect where
  deps : Option (List String)
  run : SystemState → SystemState
  cleanup : Option (SystemState → SystemState)

/-- Whether an effect runs again after a re-render: always when it has no
dependency array, otherwise only when its dependencies changed. -/
def runsAgainOnRender (e : Effect) (depsChanged : Bool) : Bool :=
  match e.deps with
  | none => true
  | some _ => depsChanged

/-- The condition of HeaderClient's sync effect body,
`if (headerTheme && headerTheme !== theme) setTheme(headerTheme)`:
the local setter is invoked exactly when the shared value is truthy and differs
from the locally displayed one. -/
def headerEffectSetsState (headerTheme theme : Option String) : Bool :=
  jsTruthy headerTheme && headerTheme != theme

/-- The new value of HeaderClient's local `theme` state after one run of the sync
effect, given the shared context value and the current local value. -/
def headerUpdateStep (headerTheme theme : Option String) : Option String :=
  if headerEffectSetsState headerTheme theme then headerTheme else theme

/-- The local display theme after the sync effect has observed, in order, each
shared-context value in `events`, starting from local value `init`. -/
def headerDisplayAfter (events : List (Option String)) (init : Option String) : Option String :=
  events.foldl (fun theme ev => headerUpdateStep ev theme) init

/-- The HeaderClient mount effect, `useEffect(() => setHeaderTheme(null), [setHeaderTheme])`. -/
def headerMountEffect : Effect :=
  { deps := some ["setHeaderTheme"], run := setHeaderTheme none, cleanup := none }

/-- The HeaderClient sync effect, `useEffect(..., [headerTheme, theme])`, reading the
shared context value and conditionally updating the local `theme` state. -/
def headerSyncEffect : Effect :=
  { deps := some ["headerTheme", "theme"],
    run := fun s => { s with theme := headerUpdateStep s.headerTheme s.theme },
    cleanup := none }

/-- The attributes of the HeaderClient root `<header>` element:
`className` always, and a `data-theme` entry spread in only when the local
`theme` state is truthy (the conditional object spread in the JSX). -/
def headerRootAttrs (theme : Option String) : List (String × String) :=
  [("className", "container relative z-20   ")] ++
    (if jsTruthy theme then [("data-theme", theme.getD "")] else [])

/-- A CMS link's destination: a custom URL or an internal document reference. -/
inductive LinkTarget
  | custom (url : String)
  | docRef (relationTo : String) (id : String)
  deriving DecidableEq, Repr

/-- The CMS link descriptor rendered by CMSLink: a label plus a destination. -/
structure LinkData where
  label : String
  target : LinkTarget
  deriving DecidableEq, Repr

/-- One entry of a `navItems` array: `{ link: {...} }`. -/
structure NavItemEntry where
  link : LinkData
  deriving DecidableEq, Repr

/-- The Header global's payload as seen by HeaderNav (`data?.navItems` may be absent). -/
structure HeaderData where
  navItems : Option (List NavItemEntry)
  deriving DecidableEq, Repr

/-- The Footer global's payload (`footerData?.navItems` may be absent). -/
structure FooterData where
  navItems : Option (List NavItemEntry)
  deriving DecidableEq, Repr

/-- A child element rendered inside HeaderNav's `<nav>`: a CMSLink carrying its
React `key` and link props, or the trailing static search link. -/
inductive NavChild
  | cmsLink (key : String) (link : LinkData) (appearance : String)
  | searchLink
  deriving DecidableEq, Repr

/-- `data?.navItems || []` in HeaderNav: a missing payload or a missing/null
`navItems` array defaults to the empty list (a present array is always truthy). -/
def headerNavItems (data : Option HeaderData) : List NavItemEntry :=
  (data.bind HeaderData.navItems).getD []

/-- The children of HeaderNav's `<nav>`: one CMSLink per nav item, keyed by
`link.label` with `appearance="link"`, then the static `/search` link. -/
def headerNavChildren (data : Option HeaderData) : List NavChild :=
  (headerNavItems data).map (fun it => NavChild.cmsLink it.link.label it.link "link") ++
    [NavChild.searchLink]

/-- A child element of the Footer: the logo home link, the theme selector, or a
CMSLink carrying its React `key` and link props. -/
inductive FooterChild
  | logoLink
  | themeSelector
  | navLink (key : String) (link : LinkData)
  deriving DecidableEq, Repr

/-- `footerData?.navItems || []` in Footer. -/
def footerNavItems (footerData : Option FooterData) : List NavItemEntry :=
  (footerData.bind FooterData.navItems).getD []

/-- The elements rendered by Footer, flattened in document order: the logo link,
the ThemeSelector, then one CMSLink per nav item keyed by `link.label`. -/
def footerChildren (footerData : Option FooterData) : List FooterChild :=
  [FooterChild.logoLink, FooterChild.themeSelector] ++
    (footerNavItems footerData).map (fun it => FooterChild.navLink it.link.label it.link)

/-- The navigation link elements among HeaderNav's children, as (key, link) pairs
in render order. -/
def navLinkElems (children : List NavChild) : List (String × LinkData) :=
  children.filterMap fun c =>
    match c with
    | NavChild.cmsLink key link _ => some (key, link)
    | NavChild.searchLink => none

/-- The navigation link elements among the Footer's children, as (key, link)
pairs in render order. -/
def footerNavElems (children : List FooterChild) : List (String × LinkData) :=
  children.filterMap fun c =>
    match c with
    | FooterChild.navLink key link => some (key, link)
    | _ => none

/-- A populated media document (the populated branch of Payload's
`string | Media` upload field). -/
structure MediaDoc where
  url : String
  alt : String
  deriving DecidableEq, Repr

/-- A Payload upload field value: either an unpopulated document id (a string, so
`typeof media !== "object"`) or a populated media document (an object). -/
inductive MediaField
  | docId (id : String)
  | doc (media : MediaDoc)
  deriving DecidableEq, Repr

/-- The test `typeof media === "object"` on a non-null upload field value. -/
def mediaIsObject : MediaField → Bool
  | MediaField.docId _ => false
  | MediaField.doc _ => true

/-- An opaque rich-text payload (the Hero only forwards it to RichText). -/
structure RichTextData where
  root : String
  deriving DecidableEq, Repr

/-- The props of HighImpactHero (the hero field of a Page): each section may be absent. -/
structure HeroProps where
  links : Option (List NavItemEntry)
  media : Option MediaField
  richText : Option RichTextData
  deriving DecidableEq, Repr

/-- A conditional section rendered by HighImpactHero: the RichText block, the
`<ul>` of CMSLinks (each `<li>` keyed by its array index), or the Media element. -/
inductive HeroChild
  | richTextNode (data : RichTextData)
  | linksList (items : List (Nat × LinkData))
  | mediaNode (media : MediaDoc)
  deriving DecidableEq, Repr

/-- The conditional sections HighImpactHero renders, in document order:
`richText && <RichText/>`, `Array.isArray(links) && links.length > 0 && <ul>...`,
`media && typeof media === "object" && <Media/>`. -/
def heroChildren (p : HeroProps) : List HeroChild :=
  (match p.richText with
   | some rt => [HeroChild.richTextNode rt]
   | none => []) ++
  (match p.links with
   | some ls =>
       if 0 < ls.length then [HeroChild.linksList (ls.enum.map fun e => (e.1, e.2.link))]
       else []
   | none => []) ++
  (match p.media with
   | some (MediaField.doc d) => [HeroChild.mediaNode d]
   | _ => [])

/-- Recognizes the RichText section among the Hero's children. -/
def isRichTextChild : HeroChild → Bool
  | HeroChild.richTextNode _ => true
  | _ => false

/-- Recognizes the links `<ul>` among the Hero's children. -/
def isLinksChild : HeroChild → Bool
  | HeroChild.linksList _ => true
  | _ => false

/-- Recognizes the Media element among the Hero's children. -/
def isMediaChild : HeroChild → Bool
  | HeroChild.mediaNode _ => true
  | _ => false

/-- The attributes of HighImpactHero's root `<div>`: a literal `className` and a
hardcoded `data-theme="dark"`, written independently of props and context. -/
def heroRootAttrs (_props : HeroProps) : List (String × String) :=
  [("className", "relative -mt-[10.4rem] flex items-center justify-center text-white"),
   ("data-theme", "dark")]

/-- The HighImpactHero theme effect, a useEffect with body
setHeaderTheme("dark") and NO dependency array: it sets the shared theme to
"dark" and declares no cleanup. The props are in scope but unused by the effect. -/
def heroThemeEffect (_props : HeroProps) : Effect :=
  { deps := none, run := setHeaderTheme (some "dark"), cleanup := none }

/-- Runs a list of effects left to right on a state. -/
def runEffects (es : List Effect) (s : SystemState) : SystemState :=
  es.foldl (fun s e => e.run s) s

/-- The mount sequence of the C2 walkthrough: from a fresh state with the shared
theme unset, the Header mount effect runs, then the Hero theme effect (for a
Hero with no optional sections), then the Header sync effect. -/
def headerHeroMountRun : SystemState :=
  runEffects [headerMountEffect, heroThemeEffect ⟨none, none, none⟩, headerSyncEffect]
    ⟨none, none⟩

/-- Two nav items whose labels collide: the label "Home" appears twice, on links
with different destinations. -/
def dupNavItems : List NavItemEntry :=
  [⟨⟨"Home", LinkTarget.custom "/"⟩⟩, ⟨⟨"Home", LinkTarget.custom "/legacy-home"⟩⟩]

/-- Two nav items with distinct labels. -/
def demoNavItems : List NavItemEntry :=
  [⟨⟨"Home", LinkTarget.custom "/"⟩⟩, ⟨⟨"About", LinkTarget.custom "/about"⟩⟩]

/-- If the shared value is truthy it is some nonempty string, hence `isSome`. -/
theorem jsTruthy_isSome (v : Option String) (h : jsTruthy v = true) : v.isSome = true := by
  cases v with
  | none => simp [jsTruthy] at h
  | some s => rfl

/-- One sync step preserves the invariant that the local display value is truthy
exactly when it is non-null (the local state never holds `some ""`). -/
theorem headerUpdateStep_truthy_invariant (ev th : Option String)
    (h : jsTruthy th = th.isSome) :
    jsTruthy (headerUpdateStep ev th) = (headerUpdateStep ev th).isSome := by
  unfold headerUpdateStep
  split
  · next hc =>
      unfold headerEffectSetsState at hc
      have hev : jsTruthy ev = true := (Bool.and_eq_true _ _).mp hc |>.1
      rw [hev, jsTruthy_isSome ev hev]
  · exact h

/-- Starting from `null`, the local display value is truthy exactly when it is
non-null, after any sequence of observed shared values. -/
theorem headerDisplayAfter_truthy (events : List (Option String)) (init : Option String)
    (h : jsTruthy init = init.isSome) :
    jsTruthy (headerDisplayAfter events init) = (headerDisplayAfter events init).isSome := by
  induction events generalizing init with
  | nil => exact h
  | cons e es ih =>
      simp only [headerDisplayAfter, List.foldl_cons] at *
      exact ih _ (headerUpdateStep_truthy_invariant e init h)

/-- A null shared value leaves the local display state unchanged. -/
theorem headerUpdateStep_none (th : Option String) : headerUpdateStep none th = th := rfl

/-- Observing the shared value "dark" always leaves the local display at "dark". -/
theorem headerUpdateStep_dark (th : Option String) :
    headerUpdateStep (some "dark") th = some "dark" := by
  by_cases h : th = some "dark"
  · subst h
    simp [headerUpdateStep, headerEffectSetsState]
  · have hcond : headerEffectSetsState (some "dark") th = true := by
      unfold headerEffectSetsState
      have hj : jsTruthy (some "dark") = true := by decide
      have hb : ((some "dark" : Option String) != th) = true := by
        simp only [bne_iff_ne, ne_eq]
        exact fun hc => h hc.symm
      rw [hj, hb]
      rfl
    simp [headerUpdateStep, hcond]

/-- The Header root carries the theme data attribute exactly for a display state
that is truthy iff non-null, and then its value is the display state. -/
theorem headerRootAttrs_lookup (th : Option String) (h : jsTruthy th = th.isSome) :
    (headerRootAttrs th).lookup "data-theme" = th := by
  cases th with
  | none => decide
  | some v =>
      have hv : jsTruthy (some v) = true := by rw [h]; rfl
      have h1 : (("data-theme" : String) == "className") = false := by decide
      have h2 : (("data-theme" : String) == "data-theme") = true := by decide
      simp [headerRootAttrs, hv, List.lookup, h1, h2]

/-- C1: the locally cached display theme updates only when the shared context
holds a non-null value: a null observation is the identity on the local display
state, appending a null observation to any observation sequence changes nothing,
and observing "dark" followed by null leaves the display at "dark" from any
starting display value (the last non-null value is sticky). -/
theorem c1_nonnull_only_and_dark_sticky (th th0 : Option String)
    (events : List (Option String)) :
    headerUpdateStep none th = th ∧
    headerDisplayAfter (events ++ [none]) th0 = headerDisplayAfter events th0 ∧
    headerDisplayAfter [some "dark", none] th0 = some "dark" := by
  refine ⟨rfl, ?_, ?_⟩
  · simp [headerDisplayAfter, List.foldl_append, headerUpdateStep_none]
  · show headerUpdateStep none (headerUpdateStep (some "dark") th0) = some "dark"
    rw [headerUpdateStep_none, headerUpdateStep_dark]

/-- C3: on every mount, the mount effect of the Header sets the shared context
theme to null, regardless of the value the shared context held before. -/
theorem c3_header_mount_resets_shared (s : SystemState) :
    (headerMountEffect.run s).headerTheme = none := rfl

/-- C4: the theme effect of the Hero has no dependency array, so it runs again
after every render whether or not anything changed, and its body sets the shared
theme to "dark" independently of the props and of the current context value. -/
theorem c4_hero_effect_ungated_dark (p : HeroProps) (depsChanged : Bool) (s : SystemState) :
    runsAgainOnRender (heroThemeEffect p) depsChanged = true ∧
    ((heroThemeEffect p).run s).headerTheme = some "dark" :=
  ⟨rfl, rfl⟩

/-- C7: the Hero declares no unmount cleanup, and its only write to the shared
context is the value "dark": after its effect has run any positive number of
times from any state, the shared theme is "dark", never another value and never
unset. -/
theorem c7_hero_never_reverts (p : HeroProps) (n : Nat) (s : SystemState) :
    (heroThemeEffect p).cleanup = none ∧
    (((heroThemeEffect p).run)^[n + 1] s).headerTheme = some "dark" := by
  refine ⟨rfl, ?_⟩
  rw [Function.iterate_succ_apply']
  rfl

/-- C9: the root element of the Hero block always carries the theme data
attribute with the hardcoded value "dark"; its attributes are written
independently of any prop (and of any context or Header state, which the
attribute list does not even take as input). -/
theorem c9_hero_root_always_dark (p q : HeroProps) :
    (heroRootAttrs p).lookup "data-theme" = some "dark" ∧
    heroRootAttrs p = heroRootAttrs q := by
  refine ⟨?_, rfl⟩
  show List.lookup "data-theme"
      [("className", "relative -mt-[10.4rem] flex items-center justify-center text-white"),
        ("data-theme", "dark")] = some "dark"
  decide

/-- C10: when the shared context value equals the displayed theme, or is null,
the sync effect does not call the local state setter and the display state is
unchanged; applying the update step twice with the same context value gives the
same local state as applying it once. -/
theorem c10_update_step_idempotent (ht th : Option String) :
    headerEffectSetsState ht ht = false ∧
    headerEffectSetsState none th = false ∧
    headerUpdateStep ht ht = ht ∧
    headerUpdateStep none th = th ∧
    headerUpdateStep ht (headerUpdateStep ht th) = headerUpdateStep ht th := by
  refine ⟨by simp [headerEffectSetsState], rfl, by simp [headerUpdateStep, headerEffectSetsState], rfl, ?_⟩
  unfold headerUpdateStep headerEffectSetsState
  by_cases hc : (jsTruthy ht && ht != th) = true
  · simp [hc]
  · simp [hc]

/-- Extracting the nav link elements commutes with rendering a block of CMSLinks
followed by any remaining children. -/
theorem navLinkElems_append (items : List NavItemEntry) (rest : List NavChild) :
    navLinkElems ((items.map fun it => NavChild.cmsLink it.link.label it.link "link") ++ rest)
      = (items.map fun it => (it.link.label, it.link)) ++ navLinkElems rest := by
  induction items with
  | nil => rfl
  | cons a t ih =>
      simp only [List.map_cons, List.cons_append, navLinkElems, List.filterMap_cons] at *
      rw [ih]

/-- The rendered nav link elements of HeaderNav are exactly the supplied items,
in order, each as a (label, link) pair. -/
theorem navLinkElems_headerNav (items : List NavItemEntry) :
    navLinkElems (headerNavChildren (some ⟨some items⟩))
      = items.map fun it => (it.link.label, it.link) := by
  show navLinkElems ((items.map fun it => NavChild.cmsLink it.link.label it.link "link")
      ++ [NavChild.searchLink]) = _
  rw [navLinkElems_append]
  simp [navLinkElems, List.filterMap_cons]

/-- Extracting the footer nav link elements from a block of footer CMSLinks. -/
theorem footerNavElems_map (items : List NavItemEntry) :
    footerNavElems (items.map fun it => FooterChild.navLink it.link.label it.link)
      = items.map fun it => (it.link.label, it.link) := by
  induction items with
  | nil => rfl
  | cons a t ih =>
      simp only [List.map_cons, footerNavElems, List.filterMap_cons] at *
      rw [ih]

/-- The rendered nav link elements of the Footer are exactly the supplied items,
in order, each as a (label, link) pair. -/
theorem footerNavElems_footer (items : List NavItemEntry) :
    footerNavElems (footerChildren (some ⟨some items⟩))
      = items.map fun it => (it.link.label, it.link) := by
  show footerNavElems (FooterChild.logoLink :: FooterChild.themeSelector ::
      (items.map fun it => FooterChild.navLink it.link.label it.link)) = _
  simp only [footerNavElems, List.filterMap_cons]
  exact footerNavElems_map items

/-- C2: the Header root element carries the theme data attribute exactly when a
display theme is known: after the Header has observed any sequence of
shared-context values starting from an unset local display, looking the
attribute up yields exactly the locally cached theme (absent iff the cache is
null), and after the walkthrough (shared theme unset, Hero sets "dark", Header
syncs) the root element carries the attribute with value "dark". -/
theorem c2_data_theme_attr_iff_known (events : List (Option String)) :
    ((headerRootAttrs (headerDisplayAfter events none)).lookup "data-theme"
        = headerDisplayAfter events none) ∧
    headerHeroMountRun.theme = some "dark" ∧
    (headerRootAttrs headerHeroMountRun.theme).lookup "data-theme" = some "dark" :=
  ⟨headerRootAttrs_lookup _ (headerDisplayAfter_truthy events none rfl),
    by decide, by decide⟩

/-- C5 as stated is refuted by a label collision: with two different nav items
both labelled "Home", both rendered link elements (in the Header nav and in the
Footer) carry the key "Home", so the keys are not pairwise distinct. -/
theorem c5_counterexample_dup_labels :
    ((navLinkElems (headerNavChildren (some ⟨some dupNavItems⟩))).map Prod.fst
        = ["Home", "Home"]) ∧
    ¬ ((navLinkElems (headerNavChildren (some ⟨some dupNavItems⟩))).map Prod.fst).Nodup ∧
    ¬ ((footerNavElems (footerChildren (some ⟨some dupNavItems⟩))).map Prod.fst).Nodup := by
  decide

/-- C5 (amended): for every supplied navigation list of length N, the Header nav
and the Footer render exactly N link elements, in the supplied order, each keyed
by its label; the keys are pairwise distinct whenever the labels are. -/
theorem c5_nav_links_order_keys (items : List NavItemEntry) :
    (navLinkElems (headerNavChildren (some ⟨some items⟩))
        = items.map fun it => (it.link.label, it.link)) ∧
    ((navLinkElems (headerNavChildren (some ⟨some items⟩))).length = items.length) ∧
    (footerNavElems (footerChildren (some ⟨some items⟩))
        = items.map fun it => (it.link.label, it.link)) ∧
    ((items.map fun it => it.link.label).Nodup →
      ((navLinkElems (headerNavChildren (some ⟨some items⟩))).map Prod.fst).Nodup ∧
      ((footerNavElems (footerChildren (some ⟨some items⟩))).map Prod.fst).Nodup) := by
  refine ⟨navLinkElems_headerNav items, ?_, footerNavElems_footer items, fun h => ⟨?_, ?_⟩⟩
  · rw [navLinkElems_headerNav items, List.length_map]
  · rw [navLinkElems_headerNav items, List.map_map]
    exact h
  · rw [footerNavElems_footer items, List.map_map]
    exact h

/-- Witness for C5 at a concrete two-item list with distinct labels. -/
theorem c5_nav_links_order_keys_witness :
    ((navLinkElems (headerNavChildren (some ⟨some demoNavItems⟩))).map Prod.fst).Nodup ∧
    ((footerNavElems (footerChildren (some ⟨some demoNavItems⟩))).map Prod.fst).Nodup :=
  (c5_nav_links_order_keys demoNavItems).2.2.2 (by decide)

/-- C6: when the navigation array is missing (absent payload or absent navItems)
or empty, the nav item list defaults to the empty list; the Header nav then
renders only the static search link and the Footer renders only the logo and the
theme selector, with no navigation link items (both renders are total Lean
functions, so neither can throw). -/
theorem c6_missing_nav_defaults (d : Option HeaderData) (f : Option FooterData)
    (hd : headerNavItems d = []) (hf : footerNavItems f = []) :
    headerNavChildren d = [NavChild.searchLink] ∧
    footerChildren f = [FooterChild.logoLink, FooterChild.themeSelector] := by
  constructor
  · simp [headerNavChildren, hd]
  · simp [footerChildren, hf]

/-- Witness for C6: a wholly missing Header payload and Footer payload. -/
theorem c6_missing_nav_defaults_witness :
    headerNavChildren none = [NavChild.searchLink] ∧
    footerChildren none = [FooterChild.logoLink, FooterChild.themeSelector] :=
  c6_missing_nav_defaults none none rfl rfl

/-- C8: the Hero render is a total function (absent sections never raise) that
skips each missing section: the RichText child appears iff richText is present,
the links list child appears iff links is a present array of positive length,
and the Media child appears iff media is present and is an object (a populated
document rather than a string id). -/
theorem c8_hero_sections_conditional (p : HeroProps) :
    ((heroChildren p).any isRichTextChild = p.richText.isSome) ∧
    ((heroChildren p).any isLinksChild = decide (0 < (p.links.getD []).length)) ∧
    ((heroChildren p).any isMediaChild = p.media.elim false mediaIsObject) := by
  obtain ⟨ls, md, rt⟩ := p
  refine ⟨?_, ?_, ?_⟩ <;>
    rcases rt with _ | rt <;>
    rcases ls with _ | (_ | ⟨a, t⟩) <;>
    rcases md with _ | (mid | mdoc) <;>
      simp [heroChildren, List.any_append, isRichTextChild, isLinksChild, isMediaChild,
        mediaIsObject, List.any_cons]
